import Mathlib

/-!
Verification of the sccache core (server + compiler cache pipeline) against
its specification.  The definitions below are a shallow embedding of
`src/compiler/compiler.rs` and `src/server.rs`: pure Lean functions mirror the
Rust control flow, with the external world (storage backend, child processes,
filesystem I/O) supplied as explicit oracle inputs.  The effects a call
performs (storage get/put, running the compiler, filesystem operations) are
returned as an explicit event trace.
-/

namespace Sccache

/-- Control of caching behavior (`CacheControl` in compiler.rs). -/
inductive CacheControl
  | default
  | forceRecache
deriving DecidableEq

/-- Can this result be stored in cache? (`Cacheable` in compiler.rs). -/
inductive Cacheable
  | yes
  | no
deriving DecidableEq

/-- Specifics about cache misses (`MissType` in compiler.rs). -/
inductive MissType
  | normal
  | forcedRecache
  | timedOut
  | cacheReadError
deriving DecidableEq

/-- Specifics about distributed compilation (`DistType` in compiler.rs). -/
inductive DistType
  | noDist
  | ok
  | error
deriving DecidableEq

/-- A child process result (`std::process::Output`): exit status plus captured
streams, with byte strings modelled as lists of byte values. -/
structure ProcOutput where
  exitCode : Int
  stdout : List Nat
  stderr : List Nat
deriving DecidableEq

/-- A path, modelled as its list of components. -/
abbrev PathM := List String

/-- Rust `Path::parent`: none for an empty (root) path, otherwise drop the
last component. -/
def parentDir (p : PathM) : Option PathM :=
  match p with
  | [] => none
  | _ => some (List.dropLast p)

/-- One named member of a cache entry: logical name, blob bytes, and the
optional stored Unix file mode. -/
structure ZipMember where
  name : String
  data : List Nat
  mode : Option Nat
deriving DecidableEq

/-- A cache entry: a sealed container of named blobs (`CacheRead` contents). -/
abbrev CacheEntry := List ZipMember

/-- Look up a member by name (`CacheRead::get_object`): the blob bytes and the
stored mode, or `none` when the member is absent (in the source this is an
`Err`, which the hit path either ignores for stdout/stderr or propagates). -/
def getObject (e : CacheEntry) (name : String) : Option (List Nat × Option Nat) :=
  (List.find? (fun m => m.name = name) e).map (fun m => (m.data, m.mode))

/-- Bytes of a member, defaulting to the empty stream when the member is
absent (the hit path does `drop(entry.get_object("stdout", &mut stdout))`,
leaving the freshly created buffer empty on failure). -/
def memberData (e : CacheEntry) (name : String) : List Nat :=
  match getObject e name with
  | some (d, _) => d
  | none => []

/-- Stored mode of a member, `none` when the member is absent or carries no
mode. -/
def objectMode (e : CacheEntry) (name : String) : Option Nat :=
  match getObject e name with
  | some (_, m) => m
  | none => none

/-- Result of `storage.get` (`Cache` in cache.rs): hit with an entry, miss, or
a backend-forced recache. -/
inductive CacheRes
  | hit (entry : CacheEntry)
  | miss
  | recache
deriving DecidableEq

/-- Outcome of the timeout-wrapped cache lookup: the storage result, the
60-second timeout elapsing, or a storage error. -/
inductive LookupOutcome
  | result (c : CacheRes)
  | timedOut
  | readErr
deriving DecidableEq

/-- The hard-coded bound on the cache lookup, from
`let timeout = Duration::new(60, 0)` in `get_cached_or_compile`. -/
def cacheLookupTimeoutSecs : Nat := 60

/-- Hashing errors (`generate_hash_key` failures): the preprocessor exited
non-zero (`ErrorKind::ProcessError(output)`) or any other error. -/
inductive HashErr
  | processError (output : ProcOutput)
  | otherHashError
deriving DecidableEq

/-- The part of `HashResult` the pipeline itself consumes: the hex digest
key.  (The `Compilation` payload is represented by the `outputs` and
`compile` oracle fields of `PipelineInput`; the weak toolchain key is only
passed through to the dist path.) -/
structure HashResultM where
  key : String
deriving DecidableEq

/-- Classification of a failed compile future, mirroring the two error kinds
the pipeline distinguishes (`ErrorKind::HttpClientError` versus everything
else). -/
inductive CompileErr
  | httpClient (msg : String)
  | otherErr
deriving DecidableEq

/-- Failure modes of hit materialization. -/
inductive MatErr
  | ioError
  | noParentDir
  | missingMember
deriving DecidableEq

/-- Errors surfaced by `get_cached_or_compile` itself. -/
inductive PipeErr
  | structural
  | materialization (e : MatErr)
  | httpClient (msg : String)
deriving DecidableEq

/-- Filesystem operations performed while materializing a cache hit.  A
temporary file is identified by the directory it was created in together with
a fresh identifier `id` (the uniqueness that `NamedTempFile::new_in`
guarantees; the embedding uses the output's index as the identifier). -/
inductive FsOp
  | createTemp (dir : PathM) (id : Nat)
  | persist (dir : PathM) (id : Nat) (dest : PathM)
  | setMode (dest : PathM) (mode : Nat)
deriving DecidableEq

/-- Observable effects of one `get_cached_or_compile` call, including the
effects of the deferred cache-write future it may return. -/
inductive Event
  | storageGet (key : String)
  | storagePut (key : String)
  | compiled
  | fs (op : FsOp)
deriving DecidableEq

/-- The result of a compilation or cache retrieval (`CompileResult` in
compiler.rs).  Durations are dropped (equality ignores them in the source);
the cache-write future of the miss variant is represented by the key it will
store under. -/
inductive CompileResultM
  | errorRes
  | cacheHit
  | cacheMiss (m : MissType) (d : DistType) (writeKey : String)
  | notCacheable
  | compileFailed
deriving DecidableEq

/-- Materialize one declared output of a cache hit, mirroring the body of the
`for (key, path) in &outputs` loop: take the destination's parent directory,
create a uniquely named temporary file there, read the blob (and its stored
mode) into it, atomically persist it over the destination, and apply the mode
if one was stored.  `ioErr` is the oracle for I/O failures of the temp-file
create/persist/set-mode steps. -/
def materializeOne (entry : CacheEntry) (ioErr : Nat → Bool) (idx : Nat)
    (key : String) (path : PathM) : Except MatErr (List FsOp) :=
  if ioErr idx then Except.error MatErr.ioError
  else
    match parentDir path with
    | none => Except.error MatErr.noParentDir
    | some dir =>
      match getObject entry key with
      | none => Except.error MatErr.missingMember
      | some (_, mode) =>
        Except.ok ([FsOp.createTemp dir idx, FsOp.persist dir idx path] ++
          (match mode with
           | some m => [FsOp.setMode path m]
           | none => []))

/-- Materialize every declared output in order; the first failure aborts the
whole materialization (the loop body uses `?`). -/
def materializeAll (entry : CacheEntry) (ioErr : Nat → Bool) :
    Nat → List (String × PathM) → Except MatErr (List FsOp)
  | _, [] => Except.ok []
  | idx, (key, path) :: rest =>
    match materializeOne entry ioErr idx key path with
    | Except.error e => Except.error e
    | Except.ok ops =>
      match materializeAll entry ioErr (idx + 1) rest with
      | Except.error e => Except.error e
      | Except.ok more => Except.ok (ops ++ more)

/-- All inputs of one `get_cached_or_compile` call, with the external world
(hasher, storage lookup, compile, cache-write zipping) as oracles:
`hashRes` is the result of `generate_hash_key`; `lookup` is what the
timeout-wrapped `storage.get` would return if issued; `outputs` are the
declared outputs of the `Compilation`, already joined onto the cwd;
`ioErr` is the I/O-failure oracle of hit materialization; `compile` is the
result of `dist_or_local_compile`; `zipOk` tells whether the cache-write
future succeeds in zipping the produced outputs (its `storage.put` only
happens then). -/
structure PipelineInput where
  hashRes : Except HashErr HashResultM
  cacheControl : CacheControl
  lookup : LookupOutcome
  outputs : List (String × PathM)
  ioErr : Nat → Bool
  compile : Except CompileErr (Cacheable × DistType × ProcOutput)
  zipOk : Bool

/-- The cache-hit branch of `get_cached_or_compile`: recover stdout/stderr
(best effort), materialize every output, and return `CacheHit` with a
synthesized zero exit status; a materialization failure fails the whole
call. -/
def hitBranch (i : PipelineInput) (entry : CacheEntry) (ev1 : List Event) :
    Except PipeErr (CompileResultM × ProcOutput) × List Event :=
  match materializeAll entry i.ioErr 0 i.outputs with
  | Except.ok ops =>
    (Except.ok (CompileResultM.cacheHit,
        ⟨0, memberData entry "stdout", memberData entry "stderr"⟩),
      ev1 ++ ops.map Event.fs)
  | Except.error e => (Except.error (PipeErr.materialization e), ev1)

/-- The miss continuation of `get_cached_or_compile`: run the compile; a
non-zero exit yields `CompileFailed` (nothing stored), a non-cacheable
verdict yields `NotCacheable` (nothing stored), and only a successful
cacheable compile returns `CacheMiss` carrying the cache-write future, whose
`storage.put` on `key` is recorded in the trace when the zip step
succeeds. -/
def missCompile (i : PipelineInput) (key : String) (m : MissType)
    (ev1 : List Event) : Except PipeErr (CompileResultM × ProcOutput) × List Event :=
  match i.compile with
  | Except.error (CompileErr.httpClient s) => (Except.error (PipeErr.httpClient s), ev1)
  | Except.error CompileErr.otherErr => (Except.error PipeErr.structural, ev1)
  | Except.ok (cacheable, distType, out) =>
    if out.exitCode ≠ 0 then
      (Except.ok (CompileResultM.compileFailed, out), ev1 ++ [Event.compiled])
    else if cacheable ≠ Cacheable.yes then
      (Except.ok (CompileResultM.notCacheable, out), ev1 ++ [Event.compiled])
    else
      (Except.ok (CompileResultM.cacheMiss m distType key, out),
        ev1 ++ [Event.compiled] ++ (if i.zipOk then [Event.storagePut key] else []))

/-- The cache pipeline `CompilerHasher::get_cached_or_compile`
(compiler.rs).  A preprocessor `ProcessError` short-circuits to
`(CompileResult::Error, output)` with no storage access; any other hash
error is surfaced.  Under `ForceRecache` the lookup is skipped and the
status is `Cache::Recache`; otherwise `storage.get(key)` is issued (under
the 60-second timeout).  A hit materializes; every other outcome is
classified into a `MissType` and proceeds to compile. -/
def getCachedOrCompile (i : PipelineInput) :
    Except PipeErr (CompileResultM × ProcOutput) × List Event :=
  match i.hashRes with
  | Except.error (HashErr.processError out) =>
    (Except.ok (CompileResultM.errorRes, out), [])
  | Except.error HashErr.otherHashError => (Except.error PipeErr.structural, [])
  | Except.ok hr =>
    let st : LookupOutcome × List Event :=
      if i.cacheControl = CacheControl.forceRecache then
        (LookupOutcome.result CacheRes.recache, [])
      else (i.lookup, [Event.storageGet hr.key])
    match st.1 with
    | LookupOutcome.result (CacheRes.hit entry) => hitBranch i entry st.2
    | LookupOutcome.result CacheRes.miss => missCompile i hr.key MissType.normal st.2
    | LookupOutcome.result CacheRes.recache => missCompile i hr.key MissType.forcedRecache st.2
    | LookupOutcome.timedOut => missCompile i hr.key MissType.timedOut st.2
    | LookupOutcome.readErr => missCompile i hr.key MissType.cacheReadError st.2

/-- How `start_compile_task` (server.rs) picks the cache control for one
compile: any forwarded environment variable named `SCCACHE_RECACHE`
(regardless of its value) forces `CacheControl::ForceRecache`. -/
def cacheControlFor (envVars : List (String × String)) : CacheControl :=
  if envVars.any (fun kv => kv.1 = "SCCACHE_RECACHE") then CacheControl.forceRecache
  else CacheControl.default

/-- Error raised by a stage of the distributed-compile attempt, classified
the way `dist_or_local_compile`'s `or_else` classifies it: a fatal
`ErrorKind::HttpClientError`, or anything else. -/
inductive DistErr
  | httpClient (msg : String)
  | otherDistErr (msg : String)
deriving DecidableEq

/-- Inputs of one `dist_or_local_compile` call (compiler.rs, dist-client
version), with the external world as oracles: `genCmds` is the result of
`generate_compile_commands` (its `Cacheable` verdict when it succeeds);
`hasDistCmd` tells whether a distributed variant of the command exists;
`distClient` is the `Result<Option<Client>>` handed in by the server;
`distAttempt` is the outcome of the offload chain (put-toolchain, alloc,
submit-toolchain, run-job, fetch outputs, rewrite outputs) when one is made;
`localCompile` is the outcome of executing the local compile command. -/
structure DistInput where
  genCmds : Except Unit Cacheable
  hasDistCmd : Bool
  distClient : Except Unit (Option Nat)
  distAttempt : Except DistErr ProcOutput
  localCompile : Except Unit ProcOutput

/-- The distributed attempt as the source builds it: a missing distributed
compile command fails the attempt up front (`dist_compile_cmd.ok_or_else`),
otherwise the offload chain runs. -/
def distAttemptResult (i : DistInput) : Except DistErr ProcOutput :=
  if i.hasDistCmd then i.distAttempt
  else Except.error (DistErr.otherDistErr "Could not create distributed compile command")

/-- `dist_or_local_compile` (compiler.rs, dist-client version).  Returns the
`(Cacheable, DistType, Output)` triple or an error, paired with whether the
local compile command was executed.  With no dist client the compile runs
locally as `NoDist`.  With a dist client, a successful attempt is `Ok`; a
failed attempt is inspected: an `HttpClientError` is surfaced unchanged
(fatal, no local fallback), any other failure falls back to the local
compile tagged `Error`. -/
def distOrLocalCompile (i : DistInput) :
    Except DistErr (Cacheable × DistType × ProcOutput) × Bool :=
  match i.genCmds with
  | Except.error _ =>
    (Except.error (DistErr.otherDistErr "Failed to generate compile commands"), false)
  | Except.ok cacheable =>
    match i.distClient with
    | Except.error _ => (Except.error (DistErr.otherDistErr "dist client creation error"), false)
    | Except.ok none =>
      match i.localCompile with
      | Except.ok out => (Except.ok (cacheable, DistType.noDist, out), true)
      | Except.error _ => (Except.error (DistErr.otherDistErr "local compile error"), true)
    | Except.ok (some _) =>
      match distAttemptResult i with
      | Except.ok out => (Except.ok (cacheable, DistType.ok, out), false)
      | Except.error (DistErr.httpClient m) => (Except.error (DistErr.httpClient m), false)
      | Except.error (DistErr.otherDistErr _) =>
        match i.localCompile with
        | Except.ok out => (Except.ok (cacheable, DistType.error, out), true)
        | Except.error _ => (Except.error (DistErr.otherDistErr "local compile error"), true)

/-- The dist-client state machine (`DistClientState` in server.rs).  Configs
and clients are opaque, modelled as naturals; an `Instant` is an integer
timestamp. -/
inductive DistClientState
  | someState (cfg : Nat) (client : Nat)
  | failWithMessage (cfg : Nat) (msg : String)
  | retryCreateAt (cfg : Nat) (t : Int)
  | disabled
deriving DecidableEq

/-- `DistClientContainer::reset_state` (server.rs): every non-`Disabled`
state becomes `RetryCreateAt(cfg, now - 1s)`; `Disabled` is unchanged. -/
def resetState (now : Int) (s : DistClientState) : DistClientState :=
  match s with
  | DistClientState.someState cfg _ => DistClientState.retryCreateAt cfg (now - 1)
  | DistClientState.failWithMessage cfg _ => DistClientState.retryCreateAt cfg (now - 1)
  | DistClientState.retryCreateAt cfg _ => DistClientState.retryCreateAt cfg (now - 1)
  | DistClientState.disabled => DistClientState.disabled

/-- `DistClientContainer::maybe_recreate_state`: a `RetryCreateAt` whose
deadline has passed is replaced by a freshly created state (`create_state`
supplied as an oracle); everything else is untouched. -/
def maybeRecreateState (createState : Nat → DistClientState) (now : Int)
    (s : DistClientState) : DistClientState :=
  match s with
  | DistClientState.retryCreateAt cfg t =>
    if t > now then DistClientState.retryCreateAt cfg t else createState cfg
  | _ => s

/-- `DistClientContainer::get_client`: after the recreation check, `Some`
yields the client, `Disabled` and a pending `RetryCreateAt` yield no client,
and `FailWithMessage` returns the error and simultaneously moves the state
to `RetryCreateAt(cfg, now - 1s)` so the next call attempts recreation. -/
def getClient (createState : Nat → DistClientState) (now : Int)
    (s : DistClientState) : Except String (Option Nat) × DistClientState :=
  match maybeRecreateState createState now s with
  | DistClientState.someState cfg dc =>
    (Except.ok (some dc), DistClientState.someState cfg dc)
  | DistClientState.disabled => (Except.ok none, DistClientState.disabled)
  | DistClientState.retryCreateAt cfg t =>
    (Except.ok none, DistClientState.retryCreateAt cfg t)
  | DistClientState.failWithMessage cfg msg =>
    (Except.error msg, DistClientState.retryCreateAt cfg (now - 1))

/-- Effects of the server's error arm in `start_compile_task`'s result
handler: the dist-client state after the arm runs, and the retcode put into
the `CompileFinished` reply. -/
structure FinishEffects where
  newDistState : DistClientState
  retcode : Int
deriving DecidableEq

/-- The error arms of the `match result` in `start_compile_task`
(server.rs): an `HttpClientError` resets the dist-client state machine and
replies with retcode 1; any other structural error leaves the dist state
alone and replies with retcode -2. -/
def handleCompileResultError (now : Int) (st : DistClientState) (e : PipeErr) :
    FinishEffects :=
  match e with
  | PipeErr.httpClient _ => ⟨resetState now st, 1⟩
  | _ => ⟨st, -2⟩

/-- One step of `SccacheService::compiler_info` (server.rs).  The
compiler-detection cache maps an executable path to
`Option (compiler, mtime)` — `none` is a cached negative result.  A positive
entry is a hit only if the cached mtime equals the file's current mtime; a
negative entry is a hit unconditionally (`Some(&None) => Some(None)`).  On a
cache miss the detector runs (its result is the `detect` oracle) and the
cache is updated with `info.map(|i| (i, mtime))`. -/
structure CompilerInfoStep where
  info : Option Nat
  compilers : List (String × Option (Nat × Int))
  redetected : Bool
deriving DecidableEq

/-- See `CompilerInfoStep`: the embedding of `compiler_info` itself, with the
in-memory cache threaded explicitly and detection supplied as an oracle. -/
def compilerInfo (compilers : List (String × Option (Nat × Int))) (path : String)
    (mtime : Int) (detect : Option Nat) : CompilerInfoStep :=
  let cached : Option (Option Nat) :=
    match List.lookup path compilers with
    | some (some (c, cachedMtime)) =>
      if cachedMtime = mtime then some (some c) else none
    | some none => some none
    | none => none
  match cached with
  | some info => ⟨info, compilers, false⟩
  | none => ⟨detect, (path, detect.map (fun i => (i, mtime))) :: compilers, true⟩

/-- The C-family dialects `detect_c_compiler` can identify. -/
inductive CCompilerKindM
  | gcc
  | clang
  | diab
  | msvc (isClang : Bool)
deriving DecidableEq

/-- UTF-8 validation and decoding of a byte sequence into Unicode code
points, as performed by `str::from_utf8` on the probe's stdout: rejects
stray continuation bytes, overlong encodings, surrogates, and code points
above 0x10FFFF. -/
def utf8Decode : List Nat → Option (List Nat)
  | [] => some []
  | b1 :: rest =>
    if b1 < 128 then (utf8Decode rest).map (fun cs => b1 :: cs)
    else if 194 ≤ b1 ∧ b1 ≤ 223 then
      match rest with
      | b2 :: rest2 =>
        if 128 ≤ b2 ∧ b2 ≤ 191 then
          (utf8Decode rest2).map (fun cs => ((b1 - 192) * 64 + (b2 - 128)) :: cs)
        else none
      | [] => none
    else if 224 ≤ b1 ∧ b1 ≤ 239 then
      match rest with
      | b2 :: b3 :: rest3 =>
        if ((if b1 = 224 then 160 else 128) ≤ b2 ∧
            b2 ≤ (if b1 = 237 then 159 else 191)) ∧ (128 ≤ b3 ∧ b3 ≤ 191) then
          (utf8Decode rest3).map
            (fun cs => ((b1 - 224) * 4096 + (b2 - 128) * 64 + (b3 - 128)) :: cs)
        else none
      | _ => none
    else if 240 ≤ b1 ∧ b1 ≤ 244 then
      match rest with
      | b2 :: b3 :: b4 :: rest4 =>
        if ((if b1 = 240 then 144 else 128) ≤ b2 ∧
            b2 ≤ (if b1 = 244 then 143 else 191)) ∧
           (128 ≤ b3 ∧ b3 ≤ 191) ∧ (128 ≤ b4 ∧ b4 ≤ 191) then
          (utf8Decode rest4).map
            (fun cs =>
              ((b1 - 240) * 262144 + (b2 - 128) * 4096 + (b3 - 128) * 64 + (b4 - 128)) :: cs)
        else none
      | _ => none
    else none

/-- Split a code-point sequence at every newline (code point 10), keeping
empty segments, as `str::split` would. -/
def splitNl : List Nat → List (List Nat)
  | [] => [[]]
  | c :: rest =>
    if c = 10 then [] :: splitNl rest
    else
      match splitNl rest with
      | [] => [[c]]
      | l :: ls => (c :: l) :: ls

/-- Rust `str::lines` over decoded code points: split at newlines, drop the
final empty segment produced by a trailing newline (or by emptiness), and
strip one trailing carriage return (13) from each line. -/
def rustLines (cps : List Nat) : List (List Nat) :=
  let parts := splitNl cps
  let parts := if parts.getLast? = some [] then parts.dropLast else parts
  parts.map (fun l => if l.getLast? = some 13 then l.dropLast else l)

/-- Code points of an ASCII token. -/
def strBytes (s : String) : List Nat := s.data.map Char.toNat

/-- The per-line token match of `detect_c_compiler`: a line identifies a
dialect only when it is exactly one of the probe tokens. -/
def classifyLine (l : List Nat) : Option CCompilerKindM :=
  if l = strBytes "clang" then some CCompilerKindM.clang
  else if l = strBytes "diab" then some CCompilerKindM.diab
  else if l = strBytes "gcc" then some CCompilerKindM.gcc
  else if l = strBytes "msvc" then some (CCompilerKindM.msvc false)
  else if l = strBytes "msvc-clang" then some (CCompilerKindM.msvc true)
  else none

/-- The classification core of `detect_c_compiler` (compiler.rs), given the
`-E` probe's stdout bytes.  Stdout that is not valid UTF-8 is an error
(`f_err("Failed to parse output")`); otherwise the first line equal to an
identifying token selects the dialect and the adapter is constructed
(`mkCompiler` is the oracle for `CCompiler::new` and, for MSVC, the
show-includes prefix probe, either of which can fail); if no line matches,
the result is `Ok(None)` — unknown, not an error. -/
def detectCCompiler (mkCompiler : CCompilerKindM → Except Unit Unit)
    (stdout : List Nat) : Except Unit (Option CCompilerKindM) :=
  match utf8Decode stdout with
  | none => Except.error ()
  | some cps =>
    match (rustLines cps).findSome? classifyLine with
    | some k => (mkCompiler k).map (fun _ => some k)
    | none => Except.ok none

/-- The request counters of `ServerStats` (server.rs) that the compile
request path touches. -/
structure ServerStatsM where
  compile_requests : Nat
  requests_unsupported_compiler : Nat
  requests_not_compile : Nat
  requests_not_cacheable : Nat
  requests_executed : Nat
deriving DecidableEq

/-- Possible results of parsing compiler arguments (`CompilerArguments` in
compiler.rs), with the hasher payload elided. -/
inductive CompilerArgumentsM
  | okArgs
  | cannotCache (why : String) (extra : Option String)
  | notCompilation
deriving DecidableEq

/-- The counter updates of `SccacheService::check_compiler` (server.rs): an
unknown compiler bumps `requests_unsupported_compiler`; with a known
compiler, the parse outcome bumps exactly one of `requests_executed`,
`requests_not_cacheable`, `requests_not_compile`. -/
def checkCompilerStats (stats : ServerStatsM) (compiler : Option Nat)
    (parse : CompilerArgumentsM) : ServerStatsM :=
  match compiler with
  | none =>
    { stats with requests_unsupported_compiler := stats.requests_unsupported_compiler + 1 }
  | some _ =>
    match parse with
    | CompilerArgumentsM.okArgs =>
      { stats with requests_executed := stats.requests_executed + 1 }
    | CompilerArgumentsM.cannotCache _ _ =>
      { stats with requests_not_cacheable := stats.requests_not_cacheable + 1 }
    | CompilerArgumentsM.notCompilation =>
      { stats with requests_not_compile := stats.requests_not_compile + 1 }

/-- The counter updates of one `Request::Compile` through
`SccacheService::call` → `handle_compile` → `check_compiler` (server.rs):
`call` bumps `compile_requests` unconditionally; `compiler_info` first stats
the executable (`ftry!(metadata(&path)...)`, success given by `statOk`) — if
that fails the error is returned and `check_compiler` never runs; otherwise
`check_compiler` classifies (the detection outcome is the `compiler` oracle,
the argument parse the `parse` oracle). -/
def handleCompileRequestStats (stats : ServerStatsM) (statOk : Bool)
    (compiler : Option Nat) (parse : CompilerArgumentsM) : ServerStatsM :=
  let stats1 := { stats with compile_requests := stats.compile_requests + 1 }
  if statOk then checkCompilerStats stats1 compiler parse else stats1

/-- Sum of the four per-category request counters. -/
def fourSum (s : ServerStatsM) : Nat :=
  s.requests_unsupported_compiler + s.requests_executed +
    s.requests_not_cacheable + s.requests_not_compile

/-- Whether a filesystem operation is the creation of the temporary file with
identifier `id` (used to state that temp names are unique). -/
def isCreateTempWithId (id : Nat) : FsOp → Bool
  | FsOp.createTemp _ i => i = id
  | _ => false

/-- The `MissType` each non-hit lookup outcome is classified into by
`get_cached_or_compile`; `none` for a hit. -/
def missTypeOf : LookupOutcome → Option MissType
  | LookupOutcome.result (CacheRes.hit _) => none
  | LookupOutcome.result CacheRes.miss => some MissType.normal
  | LookupOutcome.result CacheRes.recache => some MissType.forcedRecache
  | LookupOutcome.timedOut => some MissType.timedOut
  | LookupOutcome.readErr => some MissType.cacheReadError

/-- A successful compiler run used by the concrete test inputs. -/
def sampleOut0 : ProcOutput := ⟨0, [104], [105]⟩

/-- A failing compiler (or preprocessor) run used by the concrete test
inputs. -/
def sampleOutFail : ProcOutput := ⟨1, [], [101]⟩

/-- A concrete cache entry with one declared output (carrying a file mode)
and a stdout stream but no stderr member. -/
def sampleEntry : CacheEntry := [⟨"obj", [1, 2], some 493⟩, ⟨"stdout", [104, 105], none⟩]

/-- A concrete pipeline input: normal miss, successful cacheable compile. -/
def sampleMissInput : PipelineInput :=
  { hashRes := Except.ok ⟨"k1"⟩
    cacheControl := CacheControl.default
    lookup := LookupOutcome.result CacheRes.miss
    outputs := [("obj", ["tmp", "foo.o"])]
    ioErr := fun _ => false
    compile := Except.ok (Cacheable.yes, DistType.noDist, sampleOut0)
    zipOk := true }

/-- `sampleMissInput` with a failing compile. -/
def sampleFailInput : PipelineInput :=
  { sampleMissInput with compile := Except.ok (Cacheable.yes, DistType.noDist, sampleOutFail) }

/-- `sampleMissInput` with a non-cacheable compile. -/
def sampleNoCacheInput : PipelineInput :=
  { sampleMissInput with compile := Except.ok (Cacheable.no, DistType.noDist, sampleOut0) }

/-- `sampleMissInput` hitting `sampleEntry` in the cache. -/
def sampleHitInput : PipelineInput :=
  { sampleMissInput with lookup := LookupOutcome.result (CacheRes.hit sampleEntry) }

/-- `sampleMissInput` whose preprocessor failed. -/
def sampleProcErrInput : PipelineInput :=
  { sampleMissInput with hashRes := Except.error (HashErr.processError sampleOutFail) }

/-- `sampleMissInput` whose cache lookup timed out. -/
def sampleTimeoutInput : PipelineInput :=
  { sampleMissInput with lookup := LookupOutcome.timedOut }

/-- `sampleMissInput` whose cache lookup failed with a read error. -/
def sampleReadErrInput : PipelineInput :=
  { sampleMissInput with lookup := LookupOutcome.readErr }

/-- `sampleMissInput` under forced recaching. -/
def sampleForceInput : PipelineInput :=
  { sampleMissInput with cacheControl := CacheControl.forceRecache }

/-- A concrete dist input whose offload attempt fails with a non-client
error. -/
def sampleDistFallbackInput : DistInput :=
  { genCmds := Except.ok Cacheable.yes
    hasDistCmd := true
    distClient := Except.ok (some 7)
    distAttempt := Except.error (DistErr.otherDistErr "alloc job failure")
    localCompile := Except.ok sampleOut0 }

/-- A concrete dist input whose offload attempt fails with an HTTP client
error. -/
def sampleDistHttpErrInput : DistInput :=
  { sampleDistFallbackInput with distAttempt := Except.error (DistErr.httpClient "401") }

/-- Reduction: under `ForceRecache` the pipeline skips the lookup (no
`storage.get` event) and continues as a `ForcedRecache` miss. -/
theorem getCached_force (i : PipelineInput) (hr : HashResultM)
    (h1 : i.hashRes = Except.ok hr)
    (h2 : i.cacheControl = CacheControl.forceRecache) :
    getCachedOrCompile i = missCompile i hr.key MissType.forcedRecache [] := by
  simp [getCachedOrCompile, h1, h2]

/-- Reduction: under default cache control a non-hit lookup outcome continues
as a miss of the corresponding `MissType`, after the `storage.get` event. -/
theorem getCached_lookup (i : PipelineInput) (hr : HashResultM) (m : MissType)
    (h1 : i.hashRes = Except.ok hr)
    (h2 : i.cacheControl = CacheControl.default)
    (h3 : missTypeOf i.lookup = some m) :
    getCachedOrCompile i = missCompile i hr.key m [Event.storageGet hr.key] := by
  cases hl : i.lookup with
  | result c =>
    cases c with
    | hit e => rw [hl] at h3; simp [missTypeOf] at h3
    | miss =>
      rw [hl] at h3; simp [missTypeOf] at h3
      simp [getCachedOrCompile, h1, h2, hl, h3]
    | recache =>
      rw [hl] at h3; simp [missTypeOf] at h3
      simp [getCachedOrCompile, h1, h2, hl, h3]
  | timedOut =>
    rw [hl] at h3; simp [missTypeOf] at h3
    simp [getCachedOrCompile, h1, h2, hl, h3]
  | readErr =>
    rw [hl] at h3; simp [missTypeOf] at h3
    simp [getCachedOrCompile, h1, h2, hl, h3]

/-- Reduction: under default cache control a hit enters the materialization
branch, after the `storage.get` event. -/
theorem getCached_hit (i : PipelineInput) (hr : HashResultM) (entry : CacheEntry)
    (h1 : i.hashRes = Except.ok hr)
    (h2 : i.cacheControl = CacheControl.default)
    (h3 : i.lookup = LookupOutcome.result (CacheRes.hit entry)) :
    getCachedOrCompile i = hitBranch i entry [Event.storageGet hr.key] := by
  simp [getCachedOrCompile, h1, h2, h3]

/-- Reduction: a failed compile yields `CompileFailed` with no storage
write. -/
theorem missCompile_fail (i : PipelineInput) (k : String) (m : MissType)
    (ev1 : List Event) (c : Cacheable) (d : DistType) (out : ProcOutput)
    (hc : i.compile = Except.ok (c, d, out)) (h0 : out.exitCode ≠ 0) :
    missCompile i k m ev1 = (Except.ok (CompileResultM.compileFailed, out),
      ev1 ++ [Event.compiled]) := by
  simp [missCompile, hc, h0]

/-- Reduction: a successful but non-cacheable compile yields `NotCacheable`
with no storage write. -/
theorem missCompile_nocache (i : PipelineInput) (k : String) (m : MissType)
    (ev1 : List Event) (d : DistType) (out : ProcOutput)
    (hc : i.compile = Except.ok (Cacheable.no, d, out)) (h0 : out.exitCode = 0) :
    missCompile i k m ev1 = (Except.ok (CompileResultM.notCacheable, out),
      ev1 ++ [Event.compiled]) := by
  simp [missCompile, hc, h0]

/-- Reduction: a successful cacheable compile yields `CacheMiss` carrying
the write future, which puts under the key when the zip step succeeds. -/
theorem missCompile_store (i : PipelineInput) (k : String) (m : MissType)
    (ev1 : List Event) (d : DistType) (out : ProcOutput)
    (hc : i.compile = Except.ok (Cacheable.yes, d, out)) (h0 : out.exitCode = 0) :
    missCompile i k m ev1 = (Except.ok (CompileResultM.cacheMiss m d k, out),
      ev1 ++ [Event.compiled] ++ (if i.zipOk then [Event.storagePut k] else [])) := by
  simp [missCompile, hc, h0]

/-- Reduction: a compile failing with an HTTP client error surfaces it. -/
theorem missCompile_err_http (i : PipelineInput) (k : String) (m : MissType)
    (ev1 : List Event) (s : String)
    (hc : i.compile = Except.error (CompileErr.httpClient s)) :
    missCompile i k m ev1 = (Except.error (PipeErr.httpClient s), ev1) := by
  simp [missCompile, hc]

/-- Reduction: any other compile failure is a structural error. -/
theorem missCompile_err_other (i : PipelineInput) (k : String) (m : MissType)
    (ev1 : List Event)
    (hc : i.compile = Except.error CompileErr.otherErr) :
    missCompile i k m ev1 = (Except.error PipeErr.structural, ev1) := by
  simp [missCompile, hc]

/-- The miss continuation never issues a `storage.get` beyond those already
in its incoming trace. -/
theorem missCompile_no_get (i : PipelineInput) (k : String) (m : MissType)
    (ev1 : List Event) (k2 : String) (h : Event.storageGet k2 ∉ ev1) :
    Event.storageGet k2 ∉ (missCompile i k m ev1).2 := by
  cases hc : i.compile with
  | error e =>
    cases e with
    | httpClient s => rw [missCompile_err_http i k m ev1 s hc]; exact h
    | otherErr => rw [missCompile_err_other i k m ev1 hc]; exact h
  | ok t =>
    obtain ⟨c, d, out⟩ := t
    by_cases h0 : out.exitCode = 0
    · cases c with
      | yes =>
        rw [missCompile_store i k m ev1 d out hc h0]
        intro hmem
        rcases List.mem_append.mp hmem with hmem1 | hmem1
        · rcases List.mem_append.mp hmem1 with hmem2 | hmem2
          · exact h hmem2
          · simp at hmem2
        · by_cases hz : i.zipOk <;> simp [hz] at hmem1
      | no =>
        rw [missCompile_nocache i k m ev1 d out hc h0]
        intro hmem
        rcases List.mem_append.mp hmem with hmem1 | hmem1
        · exact h hmem1
        · simp at hmem1
    · rw [missCompile_fail i k m ev1 c d out hc h0]
      intro hmem
      rcases List.mem_append.mp hmem with hmem1 | hmem1
      · exact h hmem1
      · simp at hmem1

/-- C3: a preprocessor failure (`ProcessError` from `generate_hash_key`)
short-circuits `get_cached_or_compile` to `(CompileResult::Error, output)`
with the preprocessor's stdout/stderr/exit status verbatim, and the call
touches storage neither with a get nor with a put. -/
theorem claim_C3_preprocessor_error_short_circuit (i : PipelineInput)
    (out : ProcOutput)
    (h : i.hashRes = Except.error (HashErr.processError out)) :
    getCachedOrCompile i = (Except.ok (CompileResultM.errorRes, out), [])
    ∧ (∀ k, Event.storageGet k ∉ (getCachedOrCompile i).2)
    ∧ (∀ k, Event.storagePut k ∉ (getCachedOrCompile i).2) := by
  have heq : getCachedOrCompile i = (Except.ok (CompileResultM.errorRes, out), []) := by
    simp [getCachedOrCompile, h]
  refine ⟨heq, ?_, ?_⟩ <;> rw [heq] <;> intro k <;> simp

/-- Witness for C3 at a concrete failing preprocessor run. -/
theorem claim_C3_witness :
    getCachedOrCompile sampleProcErrInput =
      (Except.ok (CompileResultM.errorRes, sampleOutFail), []) :=
  (claim_C3_preprocessor_error_short_circuit sampleProcErrInput sampleOutFail rfl).1

/-- Shape of a successful single-output materialization: the destination's
parent directory exists, the member is present, and the operations are
exactly create-temp-in-parent, persist-over-destination, and the optional
mode application. -/
theorem materializeOne_ok_shape (entry : CacheEntry) (ioErr : Nat → Bool)
    (idx : Nat) (k : String) (p : PathM) (ops1 : List FsOp)
    (h : materializeOne entry ioErr idx k p = Except.ok ops1) :
    ∃ dir dd mode, parentDir p = some dir ∧ getObject entry k = some (dd, mode) ∧
      ops1 = [FsOp.createTemp dir idx, FsOp.persist dir idx p] ++
        (match mode with
         | some m => [FsOp.setMode p m]
         | none => []) := by
  unfold materializeOne at h
  cases hio : ioErr idx with
  | true => simp [hio] at h
  | false =>
    simp only [hio, Bool.false_eq_true, if_false] at h
    cases hp : parentDir p with
    | none => rw [hp] at h; simp at h
    | some dir =>
      rw [hp] at h
      cases hg : getObject entry k with
      | none => rw [hg] at h; simp at h
      | some pr =>
        obtain ⟨dd, mode⟩ := pr
        rw [hg] at h
        refine ⟨dir, dd, mode, rfl, rfl, ?_⟩
        exact (Except.ok.inj h).symm

/-- Unfolding equation of `materializeAll` on a non-empty output list. -/
theorem materializeAll_cons (entry : CacheEntry) (ioErr : Nat → Bool)
    (idx : Nat) (k : String) (p : PathM) (rest : List (String × PathM)) :
    materializeAll entry ioErr idx ((k, p) :: rest) =
      match materializeOne entry ioErr idx k p with
      | Except.error e => Except.error e
      | Except.ok ops =>
        match materializeAll entry ioErr (idx + 1) rest with
        | Except.error e => Except.error e
        | Except.ok more => Except.ok (ops ++ more) := rfl

/-- Every temp file created by a successful materialization lives in the
parent directory of the output it belongs to and is persisted over exactly
that output's destination path. -/
theorem matAll_createTemp_spec (entry : CacheEntry) (ioErr : Nat → Bool) :
    ∀ (outs : List (String × PathM)) (start : Nat) (ops : List FsOp),
      materializeAll entry ioErr start outs = Except.ok ops →
      ∀ d id, FsOp.createTemp d id ∈ ops →
        start ≤ id ∧ ∃ k p, outs[id - start]? = some (k, p) ∧
          parentDir p = some d ∧ FsOp.persist d id p ∈ ops := by
  intro outs
  induction outs with
  | nil =>
    intro start ops h d id hmem
    simp [materializeAll] at h
    subst h
    simp at hmem
  | cons hd tl ih =>
    obtain ⟨k0, p0⟩ := hd
    intro start ops h d id hmem
    rw [materializeAll_cons] at h
    cases h1 : materializeOne entry ioErr start k0 p0 with
    | error e => rw [h1] at h; simp at h
    | ok ops1 =>
      rw [h1] at h
      cases h2 : materializeAll entry ioErr (start + 1) tl with
      | error e => rw [h2] at h; simp at h
      | ok ops2 =>
        rw [h2] at h
        have hops : ops = ops1 ++ ops2 := (Except.ok.inj h).symm
        subst hops
        obtain ⟨dir, dd, mode, hp, hg, hshape⟩ :=
          materializeOne_ok_shape entry ioErr start k0 p0 ops1 h1
        rcases List.mem_append.mp hmem with hmem1 | hmem1
        · rw [hshape] at hmem1
          have hma : d = dir ∧ id = start := by
            cases mode <;> simp at hmem1 <;> exact hmem1
          obtain ⟨hd1, hid1⟩ := hma
          subst hd1; subst hid1
          refine ⟨le_refl id, k0, p0, ?_, hp, ?_⟩
          · simp
          · apply List.mem_append_left
            rw [hshape]
            simp
        · obtain ⟨hle, k, p, hget, hpar, hper⟩ := ih (start + 1) ops2 h2 d id hmem1
          refine ⟨by omega, k, p, ?_, hpar, List.mem_append_right _ hper⟩
          have hsub : id - start = (id - (start + 1)) + 1 := by omega
          rw [hsub]
          simpa using hget

/-- Temp-file identifiers of a successful materialization are unique: each
appears in at most one create-temp operation. -/
theorem matAll_temp_unique (entry : CacheEntry) (ioErr : Nat → Bool) :
    ∀ (outs : List (String × PathM)) (start : Nat) (ops : List FsOp),
      materializeAll entry ioErr start outs = Except.ok ops →
      ∀ id, ops.countP (isCreateTempWithId id) ≤ 1 := by
  intro outs
  induction outs with
  | nil =>
    intro start ops h id
    simp [materializeAll] at h
    subst h
    simp
  | cons hd tl ih =>
    obtain ⟨k0, p0⟩ := hd
    intro start ops h id
    rw [materializeAll_cons] at h
    cases h1 : materializeOne entry ioErr start k0 p0 with
    | error e => rw [h1] at h; simp at h
    | ok ops1 =>
      rw [h1] at h
      cases h2 : materializeAll entry ioErr (start + 1) tl with
      | error e => rw [h2] at h; simp at h
      | ok ops2 =>
        rw [h2] at h
        have hops : ops = ops1 ++ ops2 := (Except.ok.inj h).symm
        subst hops
        obtain ⟨dir, dd, mode, hp, hg, hshape⟩ :=
          materializeOne_ok_shape entry ioErr start k0 p0 ops1 h1
        rw [List.countP_append]
        have hcount1 : ops1.countP (isCreateTempWithId id) =
            if start = id then 1 else 0 := by
          rw [hshape]
          cases mode <;> simp [isCreateTempWithId, List.countP_cons]
        by_cases hids : start = id
        · subst hids
          have hzero : ops2.countP (isCreateTempWithId start) = 0 := by
            rw [List.countP_eq_zero]
            intro op hop
            cases op with
            | createTemp d2 i2 =>
              obtain ⟨hle, _⟩ :=
                matAll_createTemp_spec entry ioErr tl (start + 1) ops2 h2 d2 i2 hop
              simp [isCreateTempWithId]
              omega
            | persist d2 i2 dest => simp [isCreateTempWithId]
            | setMode dest md => simp [isCreateTempWithId]
          rw [hcount1, hzero]
          simp
        · rw [hcount1]
          have := ih (start + 1) ops2 h2 id
          simp [hids]
          omega

/-- Every declared output whose cache-entry member carries a file mode gets
that mode applied during a successful materialization. -/
theorem matAll_setMode (entry : CacheEntry) (ioErr : Nat → Bool) :
    ∀ (outs : List (String × PathM)) (start : Nat) (ops : List FsOp),
      materializeAll entry ioErr start outs = Except.ok ops →
      ∀ k p m, (k, p) ∈ outs → objectMode entry k = some m →
        FsOp.setMode p m ∈ ops := by
  intro outs
  induction outs with
  | nil =>
    intro start ops h k p m hmem
    simp at hmem
  | cons hd tl ih =>
    obtain ⟨k0, p0⟩ := hd
    intro start ops h k p m hmem hm
    rw [materializeAll_cons] at h
    cases h1 : materializeOne entry ioErr start k0 p0 with
    | error e => rw [h1] at h; simp at h
    | ok ops1 =>
      rw [h1] at h
      cases h2 : materializeAll entry ioErr (start + 1) tl with
      | error e => rw [h2] at h; simp at h
      | ok ops2 =>
        rw [h2] at h
        have hops : ops = ops1 ++ ops2 := (Except.ok.inj h).symm
        subst hops
        rcases List.mem_cons.mp hmem with hhd | htl
        · have hk : k = k0 ∧ p = p0 := by
            injection hhd with a b
            exact ⟨a, b⟩
          obtain ⟨hk1, hp1⟩ := hk
          subst hk1; subst hp1
          obtain ⟨dir, dd, mode, hpdir, hg, hshape⟩ :=
            materializeOne_ok_shape entry ioErr start k p ops1 h1
          have hmode : mode = some m := by
            rw [objectMode, hg] at hm
            exact hm
          apply List.mem_append_left
          rw [hshape, hmode]
          simp
        · exact List.mem_append_right _ (ih (start + 1) ops2 h2 k p m htl hm)

/-- C1: on the compile path of `get_cached_or_compile` (hashing succeeded
and the lookup did not hit), a non-zero exit yields `CompileFailed` and a
`Cacheable::No` verdict yields `NotCacheable`, in both cases with no
`storage.put` for any key; and any `storage.put` in the trace comes from a
zero-exit `Cacheable::Yes` compile and stores under the computed hash key. -/
theorem claim_C1_cacheability_gate (i : PipelineInput) (hr : HashResultM)
    (c : Cacheable) (d : DistType) (out : ProcOutput)
    (h1 : i.hashRes = Except.ok hr)
    (hnh : i.cacheControl = CacheControl.default →
      ∀ e, i.lookup ≠ LookupOutcome.result (CacheRes.hit e))
    (hc : i.compile = Except.ok (c, d, out)) :
    (out.exitCode ≠ 0 →
      (getCachedOrCompile i).1 = Except.ok (CompileResultM.compileFailed, out)
      ∧ ∀ k, Event.storagePut k ∉ (getCachedOrCompile i).2)
    ∧ (out.exitCode = 0 → c = Cacheable.no →
      (getCachedOrCompile i).1 = Except.ok (CompileResultM.notCacheable, out)
      ∧ ∀ k, Event.storagePut k ∉ (getCachedOrCompile i).2)
    ∧ (∀ k, Event.storagePut k ∈ (getCachedOrCompile i).2 →
      out.exitCode = 0 ∧ c = Cacheable.yes ∧ k = hr.key) := by
  have key : ∃ m ev1, getCachedOrCompile i = missCompile i hr.key m ev1
      ∧ ∀ k, Event.storagePut k ∉ ev1 := by
    cases hcc : i.cacheControl with
    | forceRecache =>
      exact ⟨MissType.forcedRecache, [], getCached_force i hr h1 hcc, by simp⟩
    | default =>
      cases hl : i.lookup with
      | result cres =>
        cases cres with
        | hit e => exact absurd hl (hnh hcc e)
        | miss =>
          refine ⟨MissType.normal, [Event.storageGet hr.key],
            getCached_lookup i hr MissType.normal h1 hcc ?_, by simp⟩
          rw [hl]; rfl
        | recache =>
          refine ⟨MissType.forcedRecache, [Event.storageGet hr.key],
            getCached_lookup i hr MissType.forcedRecache h1 hcc ?_, by simp⟩
          rw [hl]; rfl
      | timedOut =>
        refine ⟨MissType.timedOut, [Event.storageGet hr.key],
          getCached_lookup i hr MissType.timedOut h1 hcc ?_, by simp⟩
        rw [hl]; rfl
      | readErr =>
        refine ⟨MissType.cacheReadError, [Event.storageGet hr.key],
          getCached_lookup i hr MissType.cacheReadError h1 hcc ?_, by simp⟩
        rw [hl]; rfl
  obtain ⟨m, ev1, heq, hev⟩ := key
  rw [heq]
  refine ⟨?_, ?_, ?_⟩
  · intro h0
    rw [missCompile_fail i hr.key m ev1 c d out hc h0]
    refine ⟨rfl, ?_⟩
    intro k hmem
    rcases List.mem_append.mp hmem with hmem1 | hmem1
    · exact hev k hmem1
    · simp at hmem1
  · intro h0 hno
    subst hno
    rw [missCompile_nocache i hr.key m ev1 d out hc h0]
    refine ⟨rfl, ?_⟩
    intro k hmem
    rcases List.mem_append.mp hmem with hmem1 | hmem1
    · exact hev k hmem1
    · simp at hmem1
  · intro k hmem
    by_cases h0 : out.exitCode = 0
    · cases c with
      | yes =>
        rw [missCompile_store i hr.key m ev1 d out hc h0] at hmem
        rcases List.mem_append.mp hmem with hmem1 | hmem1
        · rcases List.mem_append.mp hmem1 with hmem2 | hmem2
          · exact absurd hmem2 (hev k)
          · simp at hmem2
        · by_cases hz : i.zipOk
          · simp [hz] at hmem1
            exact ⟨h0, rfl, hmem1⟩
          · simp [hz] at hmem1
      | no =>
        rw [missCompile_nocache i hr.key m ev1 d out hc h0] at hmem
        rcases List.mem_append.mp hmem with hmem1 | hmem1
        · exact absurd hmem1 (hev k)
        · simp at hmem1
    · rw [missCompile_fail i hr.key m ev1 c d out hc h0] at hmem
      rcases List.mem_append.mp hmem with hmem1 | hmem1
      · exact absurd hmem1 (hev k)
      · simp at hmem1

/-- Witness for C1 at a concrete failing compile. -/
theorem claim_C1_witness :
    (getCachedOrCompile sampleFailInput).1 =
      Except.ok (CompileResultM.compileFailed, sampleOutFail) :=
  ((claim_C1_cacheability_gate sampleFailInput ⟨"k1"⟩ Cacheable.yes DistType.noDist
    sampleOutFail rfl (fun _ e h => by simp [sampleFailInput, sampleMissInput] at h)
    rfl).1 (by decide)).1

/-- C2: on a cache hit, a successful materialization writes each declared
output's blob to a uniquely-identified temporary file created in the
destination's parent directory, persists it over the destination, and
applies a stored file mode if present; absent stdout/stderr members yield
empty streams; and any materialization failure fails the whole call (no
recompile, no storage write). -/
theorem claim_C2_hit_materialization (i : PipelineInput) (hr : HashResultM)
    (entry : CacheEntry)
    (h1 : i.hashRes = Except.ok hr)
    (h2 : i.cacheControl = CacheControl.default)
    (h3 : i.lookup = LookupOutcome.result (CacheRes.hit entry)) :
    (∀ ops, materializeAll entry i.ioErr 0 i.outputs = Except.ok ops →
      getCachedOrCompile i =
        (Except.ok (CompileResultM.cacheHit,
          ⟨0, memberData entry "stdout", memberData entry "stderr"⟩),
         Event.storageGet hr.key :: ops.map Event.fs)
      ∧ (∀ d id, FsOp.createTemp d id ∈ ops →
          ∃ k p, i.outputs[id]? = some (k, p) ∧ parentDir p = some d ∧
            FsOp.persist d id p ∈ ops)
      ∧ (∀ id, ops.countP (isCreateTempWithId id) ≤ 1)
      ∧ (∀ k p m, (k, p) ∈ i.outputs → objectMode entry k = some m →
          FsOp.setMode p m ∈ ops))
    ∧ (getObject entry "stdout" = none → memberData entry "stdout" = [])
    ∧ (getObject entry "stderr" = none → memberData entry "stderr" = [])
    ∧ (∀ e, materializeAll entry i.ioErr 0 i.outputs = Except.error e →
      getCachedOrCompile i =
        (Except.error (PipeErr.materialization e), [Event.storageGet hr.key])
      ∧ Event.compiled ∉ (getCachedOrCompile i).2
      ∧ ∀ k, Event.storagePut k ∉ (getCachedOrCompile i).2) := by
  have heq := getCached_hit i hr entry h1 h2 h3
  refine ⟨?_, ?_, ?_, ?_⟩
  · intro ops hmat
    refine ⟨?_, ?_, matAll_temp_unique entry i.ioErr i.outputs 0 ops hmat,
      matAll_setMode entry i.ioErr i.outputs 0 ops hmat⟩
    · rw [heq]
      simp [hitBranch, hmat]
    · intro d id hmem
      obtain ⟨_, k, p, hget, hpar, hper⟩ :=
        matAll_createTemp_spec entry i.ioErr i.outputs 0 ops hmat d id hmem
      refine ⟨k, p, ?_, hpar, hper⟩
      simpa using hget
  · intro habs; simp [memberData, habs]
  · intro habs; simp [memberData, habs]
  · intro e hmat
    have heq2 : getCachedOrCompile i =
        (Except.error (PipeErr.materialization e), [Event.storageGet hr.key]) := by
      rw [heq]
      simp [hitBranch, hmat]
    refine ⟨heq2, ?_, ?_⟩ <;> rw [heq2] <;> simp

/-- Witness for C2 at a concrete hit on `sampleEntry`. -/
theorem claim_C2_witness :
    getCachedOrCompile sampleHitInput =
      (Except.ok (CompileResultM.cacheHit,
        ⟨0, memberData sampleEntry "stdout", memberData sampleEntry "stderr"⟩),
       Event.storageGet "k1" ::
         ([FsOp.createTemp ["tmp"] 0, FsOp.persist ["tmp"] 0 ["tmp", "foo.o"],
           FsOp.setMode ["tmp", "foo.o"] 493].map Event.fs)) :=
  ((claim_C2_hit_materialization sampleHitInput ⟨"k1"⟩ sampleEntry rfl rfl rfl).1
    [FsOp.createTemp ["tmp"] 0, FsOp.persist ["tmp"] 0 ["tmp", "foo.o"],
     FsOp.setMode ["tmp", "foo.o"] 493] rfl).1

/-- C4: the cache lookup is bounded by a hard-coded 60-second timeout; an
elapsed timeout is classified `MissType::TimedOut` and any other lookup
error `MissType::CacheReadError`; in both cases — as for `Miss` and
`Recache` — the pipeline proceeds to compile, and a successful cacheable
compile stores the result under the key as normal. -/
theorem claim_C4_lookup_timeout_classification :
    cacheLookupTimeoutSecs = 60
    ∧ ∀ (i : PipelineInput) (hr : HashResultM) (d : DistType) (out : ProcOutput),
      i.hashRes = Except.ok hr →
      i.cacheControl = CacheControl.default →
      i.compile = Except.ok (Cacheable.yes, d, out) →
      out.exitCode = 0 →
      i.zipOk = true →
      (i.lookup = LookupOutcome.timedOut →
        (getCachedOrCompile i).1 =
          Except.ok (CompileResultM.cacheMiss MissType.timedOut d hr.key, out)
        ∧ Event.compiled ∈ (getCachedOrCompile i).2
        ∧ Event.storagePut hr.key ∈ (getCachedOrCompile i).2)
      ∧ (i.lookup = LookupOutcome.readErr →
        (getCachedOrCompile i).1 =
          Except.ok (CompileResultM.cacheMiss MissType.cacheReadError d hr.key, out)
        ∧ Event.compiled ∈ (getCachedOrCompile i).2
        ∧ Event.storagePut hr.key ∈ (getCachedOrCompile i).2)
      ∧ (∀ m, missTypeOf i.lookup = some m →
        (getCachedOrCompile i).1 =
          Except.ok (CompileResultM.cacheMiss m d hr.key, out)
        ∧ Event.compiled ∈ (getCachedOrCompile i).2
        ∧ Event.storagePut hr.key ∈ (getCachedOrCompile i).2) := by
  refine ⟨rfl, ?_⟩
  intro i hr d out h1 h2 hc h0 hz
  have main : ∀ m, missTypeOf i.lookup = some m →
      (getCachedOrCompile i).1 =
        Except.ok (CompileResultM.cacheMiss m d hr.key, out)
      ∧ Event.compiled ∈ (getCachedOrCompile i).2
      ∧ Event.storagePut hr.key ∈ (getCachedOrCompile i).2 := by
    intro m hm
    rw [getCached_lookup i hr m h1 h2 hm,
      missCompile_store i hr.key m [Event.storageGet hr.key] d out hc h0]
    refine ⟨rfl, ?_, ?_⟩ <;> simp [hz]
  refine ⟨?_, ?_, main⟩
  · intro hl
    exact main MissType.timedOut (by rw [hl]; rfl)
  · intro hl
    exact main MissType.cacheReadError (by rw [hl]; rfl)

/-- Witness for C4 at a concrete timed-out lookup. -/
theorem claim_C4_witness :
    (getCachedOrCompile sampleTimeoutInput).1 =
      Except.ok (CompileResultM.cacheMiss MissType.timedOut DistType.noDist "k1",
        sampleOut0) :=
  ((claim_C4_lookup_timeout_classification.2 sampleTimeoutInput ⟨"k1"⟩
    DistType.noDist sampleOut0 rfl rfl rfl (by decide) rfl).1 rfl).1

/-- C5: under `ForceRecache` the pipeline never issues `storage.get` and
classifies the outcome as `MissType::ForcedRecache`; and the server forces
`CacheControl::ForceRecache` exactly when the compile request's forwarded
environment contains a variable named `SCCACHE_RECACHE`. -/
theorem claim_C5_force_recache :
    (∀ (i : PipelineInput) (hr : HashResultM),
      i.hashRes = Except.ok hr →
      i.cacheControl = CacheControl.forceRecache →
      (∀ k, Event.storageGet k ∉ (getCachedOrCompile i).2)
      ∧ (∀ (d : DistType) (out : ProcOutput),
        i.compile = Except.ok (Cacheable.yes, d, out) → out.exitCode = 0 →
        (getCachedOrCompile i).1 =
          Except.ok (CompileResultM.cacheMiss MissType.forcedRecache d hr.key, out)))
    ∧ ∀ envVars : List (String × String),
      (∃ v, ("SCCACHE_RECACHE", v) ∈ envVars) →
      cacheControlFor envVars = CacheControl.forceRecache := by
  constructor
  · intro i hr h1 h2
    rw [getCached_force i hr h1 h2]
    constructor
    · intro k
      exact missCompile_no_get i hr.key MissType.forcedRecache [] k (by simp)
    · intro d out hc h0
      rw [missCompile_store i hr.key MissType.forcedRecache [] d out hc h0]
  · intro envVars ⟨v, hv⟩
    have : envVars.any (fun kv => kv.1 = "SCCACHE_RECACHE") = true := by
      rw [List.any_eq_true]
      exact ⟨("SCCACHE_RECACHE", v), hv, by simp⟩
    simp [cacheControlFor, this]

/-- Witness for C5 at a concrete forced-recache pipeline input and a
concrete environment. -/
theorem claim_C5_witness :
    (getCachedOrCompile sampleForceInput).1 =
      Except.ok (CompileResultM.cacheMiss MissType.forcedRecache DistType.noDist "k1",
        sampleOut0)
    ∧ cacheControlFor [("SCCACHE_RECACHE", "1")] = CacheControl.forceRecache :=
  ⟨((claim_C5_force_recache.1 sampleForceInput ⟨"k1"⟩ rfl rfl).2 DistType.noDist
      sampleOut0 rfl (by decide)),
   claim_C5_force_recache.2 [("SCCACHE_RECACHE", "1")] ⟨"1", by simp⟩⟩

/-- C6: a distributed compile attempt failing with a non-client error falls
back to the local compile command and returns its output tagged
`DistType::Error`; an `HttpClientError` failure is surfaced unchanged with
no local fallback, and the server's handler then resets the dist-client
state machine (and replies with retcode 1). -/
theorem claim_C6_dist_fallback :
    (∀ (i : DistInput) (c : Cacheable) (dc : Nat) (msg : String) (lout : ProcOutput),
      i.genCmds = Except.ok c →
      i.distClient = Except.ok (some dc) →
      distAttemptResult i = Except.error (DistErr.otherDistErr msg) →
      i.localCompile = Except.ok lout →
      distOrLocalCompile i = (Except.ok (c, DistType.error, lout), true))
    ∧ (∀ (i : DistInput) (c : Cacheable) (dc : Nat) (msg : String),
      i.genCmds = Except.ok c →
      i.distClient = Except.ok (some dc) →
      distAttemptResult i = Except.error (DistErr.httpClient msg) →
      distOrLocalCompile i = (Except.error (DistErr.httpClient msg), false))
    ∧ (∀ (now : Int) (st : DistClientState) (msg : String),
      handleCompileResultError now st (PipeErr.httpClient msg) =
        ⟨resetState now st, 1⟩) := by
  refine ⟨?_, ?_, ?_⟩
  · intro i c dc msg lout hg hd ha hl
    simp [distOrLocalCompile, hg, hd, ha, hl]
  · intro i c dc msg hg hd ha
    simp [distOrLocalCompile, hg, hd, ha]
  · intro now st msg
    rfl

/-- Witness for C6 at concrete failing offload attempts. -/
theorem claim_C6_witness :
    distOrLocalCompile sampleDistFallbackInput =
      (Except.ok (Cacheable.yes, DistType.error, sampleOut0), true)
    ∧ distOrLocalCompile sampleDistHttpErrInput =
      (Except.error (DistErr.httpClient "401"), false) :=
  ⟨claim_C6_dist_fallback.1 sampleDistFallbackInput Cacheable.yes 7
      "alloc job failure" sampleOut0 rfl rfl rfl rfl,
   claim_C6_dist_fallback.2.1 sampleDistHttpErrInput Cacheable.yes 7 "401"
      rfl rfl rfl⟩

/-- C8: `get_client` in `FailFast` returns the error and moves the state to
`Retry(cfg, now-1s)`; in `Retry(cfg, t)` with `t` in the future it returns
no client and leaves the state unchanged; and `reset_state` maps every
non-`Disabled` state to `Retry(cfg, now-1s)` while leaving `Disabled`
unchanged. -/
theorem claim_C8_dist_client_lifecycle :
    (∀ (create : Nat → DistClientState) (now : Int) (cfg : Nat) (msg : String),
      getClient create now (DistClientState.failWithMessage cfg msg) =
        (Except.error msg, DistClientState.retryCreateAt cfg (now - 1)))
    ∧ (∀ (create : Nat → DistClientState) (now t : Int) (cfg : Nat),
      t > now →
      getClient create now (DistClientState.retryCreateAt cfg t) =
        (Except.ok none, DistClientState.retryCreateAt cfg t))
    ∧ (∀ (now : Int) (cfg client : Nat),
      resetState now (DistClientState.someState cfg client) =
        DistClientState.retryCreateAt cfg (now - 1))
    ∧ (∀ (now : Int) (cfg : Nat) (msg : String),
      resetState now (DistClientState.failWithMessage cfg msg) =
        DistClientState.retryCreateAt cfg (now - 1))
    ∧ (∀ (now t : Int) (cfg : Nat),
      resetState now (DistClientState.retryCreateAt cfg t) =
        DistClientState.retryCreateAt cfg (now - 1))
    ∧ (∀ now : Int, resetState now DistClientState.disabled =
        DistClientState.disabled) := by
  refine ⟨?_, ?_, fun _ _ _ => rfl, fun _ _ _ => rfl, fun _ _ _ => rfl, fun _ => rfl⟩
  · intro create now cfg msg
    rfl
  · intro create now t cfg ht
    simp [getClient, maybeRecreateState, ht]

/-- Witness for C8 at concrete states and times. -/
theorem claim_C8_witness :
    getClient (fun _ => DistClientState.disabled) 0
      (DistClientState.retryCreateAt 3 5) =
      (Except.ok none, DistClientState.retryCreateAt 3 5) :=
  claim_C8_dist_client_lifecycle.2.1 (fun _ => DistClientState.disabled) 0 5 3
    (by decide)

/-- C7 counterexample: the claim that a negative detection entry is also
invalidated when the executable's mtime changes is false.  Cache an unknown
compiler at mtime 0 (the detector returns `None`), then call again at mtime
1 with a detector that would now find a compiler (`some 5`): the code
answers from the cache (`Some(&None) => Some(None)`, no mtime check), does
not re-detect, and returns the stale negative result. -/
theorem claim_C7_counterexample :
    (compilerInfo (compilerInfo [] "cc" 0 none).compilers "cc" 1 (some 5)).redetected
      = false
    ∧ (compilerInfo (compilerInfo [] "cc" 0 none).compilers "cc" 1 (some 5)).info
      = none := by
  constructor <;> rfl

/-- C7 amended: the mtime-staleness invalidation holds for positive
detection entries — a cached `(compiler, mtime)` whose mtime differs from
the file's current mtime is re-detected, and one whose mtime matches is
answered from the cache — while a cached negative entry is answered from the
cache unconditionally, regardless of the current mtime. -/
theorem claim_C7_amended_detection_cache :
    (∀ (compilers : List (String × Option (Nat × Int))) (path : String)
       (mtime : Int) (detect : Option Nat) (c : Nat) (t : Int),
      List.lookup path compilers = some (some (c, t)) → t ≠ mtime →
      (compilerInfo compilers path mtime detect).redetected = true)
    ∧ (∀ (compilers : List (String × Option (Nat × Int))) (path : String)
       (mtime : Int) (detect : Option Nat) (c : Nat),
      List.lookup path compilers = some (some (c, mtime)) →
      compilerInfo compilers path mtime detect = ⟨some c, compilers, false⟩)
    ∧ (∀ (compilers : List (String × Option (Nat × Int))) (path : String)
       (mtime : Int) (detect : Option Nat),
      List.lookup path compilers = some none →
      compilerInfo compilers path mtime detect = ⟨none, compilers, false⟩) := by
  refine ⟨?_, ?_, ?_⟩
  · intro compilers path mtime detect c t hl hne
    simp [compilerInfo, hl, hne]
  · intro compilers path mtime detect c hl
    simp [compilerInfo, hl]
  · intro compilers path mtime detect hl
    simp [compilerInfo, hl]

/-- Witness for the amended C7: a positive entry cached at mtime 0 is
re-detected at mtime 1. -/
theorem claim_C7_witness :
    (compilerInfo [("cc", some (4, 0))] "cc" 1 (some 5)).redetected = true :=
  claim_C7_amended_detection_cache.1 [("cc", some (4, 0))] "cc" 1 (some 5) 4 0
    rfl (by decide)

/-- C9 counterexample: the claim that the detector returns `None` (not an
error) for any probe stdout without an identifying token is false: stdout
consisting of the single byte 0xFF contains no token, is not valid UTF-8,
and `detect_c_compiler` fails with an error
(`f_err("Failed to parse output")`) instead of returning `None`. -/
theorem claim_C9_counterexample :
    detectCCompiler (fun _ => Except.ok ()) [255] = Except.error () := rfl

/-- C9 amended: for every executable that is not rustc, when the `-E` probe's
stdout is valid UTF-8 and none of its lines equals an identifying token
(msvc-clang, msvc, clang, gcc, diab), the detector returns `None` — an
unknown result, not an error; stdout that is not valid UTF-8 instead yields
an error. -/
theorem claim_C9_amended_unknown_compiler :
    (∀ (mk : CCompilerKindM → Except Unit Unit) (stdout cps : List Nat),
      utf8Decode stdout = some cps →
      (∀ l ∈ rustLines cps, classifyLine l = none) →
      detectCCompiler mk stdout = Except.ok none)
    ∧ (∀ (mk : CCompilerKindM → Except Unit Unit) (stdout : List Nat),
      utf8Decode stdout = none →
      detectCCompiler mk stdout = Except.error ()) := by
  constructor
  · intro mk stdout cps hdec hnone
    rw [detectCCompiler, hdec]
    simp [List.findSome?_eq_none_iff.mpr hnone]
  · intro mk stdout hdec
    rw [detectCCompiler, hdec]

/-- Witness for the amended C9 at a concrete tokenless stdout. -/
theorem claim_C9_witness :
    detectCCompiler (fun _ => Except.ok ()) (strBytes "something") =
      Except.ok none :=
  claim_C9_amended_unknown_compiler.1 (fun _ => Except.ok ())
    (strBytes "something") (strBytes "something") (by decide) (by decide)

/-- C10 counterexample: the claim that every `Compile` request bumps
`compile_requests` and then exactly one of the four category counters is
false when stat-ing the executable fails (`ftry!(metadata(&path)...)` in
`compiler_info`): the request bumps `compile_requests` but `check_compiler`
never runs, so none of the four category counters changes. -/
theorem claim_C10_counterexample :
    (handleCompileRequestStats ⟨0, 0, 0, 0, 0⟩ false none
      CompilerArgumentsM.notCompilation).compile_requests = 1
    ∧ ¬ (fourSum (handleCompileRequestStats ⟨0, 0, 0, 0, 0⟩ false none
        CompilerArgumentsM.notCompilation) = fourSum ⟨0, 0, 0, 0, 0⟩ + 1) := by
  constructor <;> decide

/-- C10 amended: every `Compile` request bumps `compile_requests` by exactly
one; when stat-ing the executable succeeds, exactly one of the four category
counters is bumped, according to whether the compiler is unknown, the
arguments parse, parsing cannot cache, or parsing is not a compilation; when
the stat fails, none of the four is bumped. -/
theorem claim_C10_amended_request_counters (stats : ServerStatsM)
    (statOk : Bool) (compiler : Option Nat) (parse : CompilerArgumentsM) :
    (handleCompileRequestStats stats statOk compiler parse).compile_requests
      = stats.compile_requests + 1
    ∧ (statOk = true →
      fourSum (handleCompileRequestStats stats statOk compiler parse)
        = fourSum stats + 1
      ∧ (compiler = none →
        (handleCompileRequestStats stats statOk compiler parse).requests_unsupported_compiler
          = stats.requests_unsupported_compiler + 1)
      ∧ (∀ c, compiler = some c → parse = CompilerArgumentsM.okArgs →
        (handleCompileRequestStats stats statOk compiler parse).requests_executed
          = stats.requests_executed + 1)
      ∧ (∀ c why extra, compiler = some c →
        parse = CompilerArgumentsM.cannotCache why extra →
        (handleCompileRequestStats stats statOk compiler parse).requests_not_cacheable
          = stats.requests_not_cacheable + 1)
      ∧ (∀ c, compiler = some c → parse = CompilerArgumentsM.notCompilation →
        (handleCompileRequestStats stats statOk compiler parse).requests_not_compile
          = stats.requests_not_compile + 1))
    ∧ (statOk = false →
      fourSum (handleCompileRequestStats stats statOk compiler parse)
        = fourSum stats) := by
  refine ⟨?_, ?_, ?_⟩
  · cases statOk with
    | false => rfl
    | true =>
      cases compiler with
      | none => rfl
      | some c => cases parse <;> rfl
  · intro hok
    subst hok
    refine ⟨?_, ?_, ?_, ?_, ?_⟩
    · cases compiler with
      | none => simp [handleCompileRequestStats, checkCompilerStats, fourSum]; omega
      | some c =>
        cases parse <;> simp [handleCompileRequestStats, checkCompilerStats, fourSum] <;> omega
    · intro hc; subst hc; rfl
    · intro c hc hp; subst hc; subst hp; rfl
    · intro c why extra hc hp; subst hc; subst hp; rfl
    · intro c hc hp; subst hc; subst hp; rfl
  · intro hok
    subst hok
    rfl

/-- Witness for the amended C10 at a concrete successfully parsed request. -/
theorem claim_C10_witness :
    fourSum (handleCompileRequestStats ⟨0, 0, 0, 0, 0⟩ true (some 1)
      CompilerArgumentsM.okArgs) = fourSum ⟨0, 0, 0, 0, 0⟩ + 1 :=
  ((claim_C10_amended_request_counters ⟨0, 0, 0, 0, 0⟩ true (some 1)
    CompilerArgumentsM.okArgs).2.1 rfl).1

end Sccache
